import Mathlib

set_option maxHeartbeats 1600000

/-!
Shallow embedding of the automated recovery manager
(src/infrastructure/terraform/modules/ci-monitoring/lambda/recovery_manager.py).

Conventions of the embedding:
* machine time is an explicit natural-number parameter in seconds
  (the python code calls datetime.now at each use site);
* the DynamoDB circuit-breaker table is a function from service names to
  optional records; get_item ClientError and put_item ClientError are modelled
  by the explicit boolean parameters readFails and writeFails
  (a false flag means the store call succeeds);
* exceptions that escape a python function are modelled with Except, while
  ClientError handlers that swallow an error inside a function are modelled by
  the corresponding fallback value, exactly as the source does;
* external collaborators (the GitHub runs listing, Lambda configuration,
  the S3 listing, the availability probe) are parameters carrying the data the
  python code would have fetched from them.
-/

/-- Default value of the CIRCUIT_BREAKER_FAILURE_THRESHOLD environment
variable in recovery_manager.py. -/
def CIRCUIT_BREAKER_FAILURE_THRESHOLD : Nat := 5

/-- Default value of the CIRCUIT_BREAKER_TIMEOUT environment variable
in recovery_manager.py (seconds). -/
def CIRCUIT_BREAKER_TIMEOUT : Nat := 60

/-- Default value of the CIRCUIT_BREAKER_ENABLED environment variable. -/
def CIRCUIT_BREAKER_ENABLED : Bool := true

/-- Thirty days in seconds, the ttl window used by timedelta in the
circuit-breaker record updates. -/
def TTL_WINDOW : Nat := 2592000

/-- States of CircuitBreakerState in recovery_manager.py. -/
inductive CBState where
  | CLOSED
  | OPEN
  | HALF_OPEN
deriving DecidableEq

/-- Per-service circuit record stored in the circuit-breaker DynamoDB table,
with timestamps as integer seconds. -/
structure CircuitRecord where
  service_name : String
  state : CBState
  failure_count : Nat
  last_failure : Option Nat
  last_success : Option Nat
  ttl : Nat
deriving DecidableEq

/-- The circuit-breaker table keyed by service name. -/
abbrev Store := String → Option CircuitRecord

/-- An empty table: no record for any service. -/
def initStore : Store := fun _ => none

/-- Overwriting put_item of one record for one service name. -/
def updateStore (s : Store) (name : String) (r : CircuitRecord) : Store :=
  fun n => if n = name then some r else s n

/-- Record built by CircuitBreakerManager for an unseen service, used both by
the not-found branch of get_circuit_state and by _get_default_circuit_state. -/
def defaultCircuitState (name : String) (now : Nat) : CircuitRecord :=
  { service_name := name, state := CBState.CLOSED, failure_count := 0,
    last_failure := none, last_success := some now, ttl := now + TTL_WINDOW }

/-- CircuitBreakerManager.get_circuit_state: raises ValueError on an empty
service name; a get_item ClientError (readFails) falls back to the default
record; a missing item yields the same freshly initialised default. -/
def get_circuit_state (readFails : Bool) (store : Store) (name : String) (now : Nat) :
    Except String CircuitRecord :=
  if name = ("") then Except.error ("Service name cannot be empty")
  else if readFails then Except.ok (defaultCircuitState name now)
  else Except.ok ((store name).getD (defaultCircuitState name now))

/-- CircuitBreakerManager.record_success: resets the record to CLOSED with
failure_count 0; a put_item ClientError (writeFails) is swallowed and leaves
the store unchanged. -/
def record_success (readFails writeFails : Bool) (store : Store) (name : String)
    (now : Nat) : Except String Store :=
  match get_circuit_state readFails store name now with
  | Except.error e => Except.error e
  | Except.ok cur =>
    let upd := { cur with
      state := CBState.CLOSED
      failure_count := 0
      last_success := some now
      ttl := now + TTL_WINDOW }
    if writeFails then Except.ok store else Except.ok (updateStore store name upd)

/-- CircuitBreakerManager.record_failure: increments failure_count, moves to
OPEN once the threshold is reached, stamps last_failure, persists and returns
the new state; a put_item ClientError (writeFails) is caught and the function
returns CLOSED with the store unchanged. -/
def record_failure (readFails writeFails : Bool) (store : Store) (name : String)
    (now : Nat) : Except String (CBState × Store) :=
  match get_circuit_state readFails store name now with
  | Except.error e => Except.error e
  | Except.ok cur =>
    let fc := cur.failure_count + 1
    let ns := if CIRCUIT_BREAKER_FAILURE_THRESHOLD ≤ fc then CBState.OPEN else CBState.CLOSED
    let upd := { cur with
      state := ns
      failure_count := fc
      last_failure := some now
      ttl := now + TTL_WINDOW }
    if writeFails then Except.ok (CBState.CLOSED, store)
    else Except.ok (ns, updateStore store name upd)

/-- CircuitBreakerManager._transition_to_half_open: rewrites the current record
with state HALF_OPEN; a put_item ClientError is swallowed. -/
def transition_to_half_open (readFails writeFails : Bool) (store : Store)
    (name : String) (now : Nat) : Except String Store :=
  match get_circuit_state readFails store name now with
  | Except.error e => Except.error e
  | Except.ok cur =>
    let upd := { cur with state := CBState.HALF_OPEN, ttl := now + TTL_WINDOW }
    if writeFails then Except.ok store else Except.ok (updateStore store name upd)

/-- CircuitBreakerManager.should_allow_request: CLOSED allows; OPEN allows only
when more than the timeout has elapsed since last_failure, transitioning to
HALF_OPEN first; HALF_OPEN always allows. Returns the answer together with
the possibly updated store. -/
def should_allow_request (readFails writeFails : Bool) (store : Store)
    (name : String) (now : Nat) : Except String (Bool × Store) :=
  if !CIRCUIT_BREAKER_ENABLED then Except.ok (true, store)
  else
    match get_circuit_state readFails store name now with
    | Except.error e => Except.error e
    | Except.ok cur =>
      match cur.state with
      | CBState.CLOSED => Except.ok (true, store)
      | CBState.OPEN =>
        match cur.last_failure with
        | some lf =>
          if CIRCUIT_BREAKER_TIMEOUT < now - lf then
            match transition_to_half_open readFails writeFails store name now with
            | Except.error e => Except.error e
            | Except.ok s2 => Except.ok (true, s2)
          else Except.ok (false, store)
        | none => Except.ok (false, store)
      | CBState.HALF_OPEN => Except.ok (true, store)

/-- A sequence of record_failure calls (no store faults) at the given times,
threading the store; used to state the consecutive-failure scenarios. -/
def applyFailures (store : Store) (name : String) : List Nat → Except String Store
  | [] => Except.ok store
  | t :: ts =>
    match record_failure false false store name t with
    | Except.error e => Except.error e
    | Except.ok res => applyFailures res.2 name ts

/-- One fault-free invocation of a store-mutating circuit-breaker operation
(record_success, record_failure or should_allow_request; get_circuit_state
never writes). -/
inductive CBStep : Store → Store → Prop where
  | success (s : Store) (name : String) (now : Nat) (s2 : Store)
      (h : record_success false false s name now = Except.ok s2) : CBStep s s2
  | failure (s : Store) (name : String) (now : Nat) (st : CBState) (s2 : Store)
      (h : record_failure false false s name now = Except.ok (st, s2)) : CBStep s s2
  | allow (s : Store) (name : String) (now : Nat) (b : Bool) (s2 : Store)
      (h : should_allow_request false false s name now = Except.ok (b, s2)) : CBStep s s2

/-- Stores reachable from the empty table by circuit-breaker operations. -/
inductive CBReachable : Store → Prop where
  | init : CBReachable initStore
  | step (s s2 : Store) (hs : CBReachable s) (h : CBStep s s2) : CBReachable s2

/-- Invariant of the circuit-breaker table: any record in state OPEN or
HALF_OPEN carries a failure_count at or above the threshold. -/
def CircuitInv (s : Store) : Prop :=
  ∀ name r, s name = some r →
    (r.state = CBState.OPEN ∨ r.state = CBState.HALF_OPEN) →
    CIRCUIT_BREAKER_FAILURE_THRESHOLD ≤ r.failure_count

/-- ASCII lowering of a string, the model of python str.lower on the
ASCII identifiers and prose this code matches against. -/
def strLower (s : String) : String := String.mk (s.data.map Char.toLower)

/-- Needle matches at the head of the haystack. -/
def leadMatch : List Char → List Char → Bool
  | [], _ => true
  | _ :: _, [] => false
  | a :: as, b :: bs => a == b && leadMatch as bs

/-- Needle occurs somewhere in the haystack. -/
def hasSub (needle : List Char) : List Char → Bool
  | [] => leadMatch needle []
  | b :: bs => leadMatch needle (b :: bs) || hasSub needle bs

/-- Substring containment, the model of the python operator in on str. -/
def strContains (hay needle : String) : Bool := hasSub needle.data hay.data

/-- One workflow-run failure record as consumed by the classifier: the run
conclusion (absent or null modelled as none) and the head-commit message. -/
structure FailureRecord where
  conclusion : Option String
  commit_message : String
deriving DecidableEq

/-- Keyword list of _analyze_failure_patterns for dependency issues. -/
def dependencyKeywords : List String :=
  [("dependency"), ("package"), ("npm"), ("pip"), ("yarn")]

/-- Truthiness-guarded timeout test on a record's conclusion, exactly the
per-record condition of _analyze_failure_patterns: the conclusion must be
present and non-empty, and its lowering must contain the word timeout. -/
def conclusion_timeout (f : FailureRecord) : Bool :=
  match f.conclusion with
  | some c => (!(c == (""))) && strContains (strLower c) ("timeout")
  | none => false

/-- Per-record dependency-keyword test of _analyze_failure_patterns on the
lowered commit message. -/
def commit_dependency (f : FailureRecord) : Bool :=
  dependencyKeywords.any (fun w => strContains (strLower f.commit_message) w)

/-- RecoveryExecutor._analyze_failure_patterns: tags in the order the source
appends them (timeout, dependency, resource). -/
def analyze_failure_patterns (failures : List FailureRecord) : List String :=
  (if 2 ≤ (failures.filter conclusion_timeout).length then [("timeout")] else [])
    ++ (if 2 ≤ (failures.filter commit_dependency).length then [("dependency")] else [])
    ++ (if 3 ≤ failures.length then [("resource")] else [])

/-- Modelled from the claim's words for comparison with the source: the
case-sensitive per-record condition that the conclusion field contains the
substring timeout as written. -/
def spec_conclusion_timeout (f : FailureRecord) : Bool :=
  match f.conclusion with
  | some c => strContains c ("timeout")
  | none => false

/-- RecoveryExecutor._recover_timeout_issues. -/
def recover_timeout_issues : List String :=
  [("Increasing workflow timeout limits"),
   ("Optimizing slow test suites"),
   ("Implementing test parallelization")]

/-- RecoveryExecutor._recover_dependency_issues. -/
def recover_dependency_issues : List String :=
  [("Clearing dependency cache"),
   ("Updating package lock files"),
   ("Testing with pinned dependency versions")]

/-- RecoveryExecutor._recover_resource_issues. -/
def recover_resource_issues : List String :=
  [("Scaling up runner resources"),
   ("Implementing build parallelization"),
   ("Optimizing resource allocation")]

/-- RecoveryExecutor._basic_pipeline_recovery. -/
def basic_pipeline_recovery : List String :=
  [("Restarting failed workflow"),
   ("Clearing temporary caches"),
   ("Validating runner environment")]

/-- RecoveryExecutor._recover_pipeline_failure, with the recent-failure
listing the python code fetches from the GitHub API passed as a parameter. -/
def recover_pipeline_failure (recent_failures : List FailureRecord) : List String :=
  if 3 ≤ recent_failures.length then
    let failure_patterns := analyze_failure_patterns recent_failures
    [("Detected multiple recent failures, initiating comprehensive recovery")]
      ++ (if ("timeout") ∈ failure_patterns then recover_timeout_issues else [])
      ++ (if ("dependency") ∈ failure_patterns then recover_dependency_issues else [])
      ++ (if ("resource") ∈ failure_patterns then recover_resource_issues else [])
  else
    ("Single failure detected, attempting basic recovery") :: basic_pipeline_recovery

/-- Memory computed by _scale_lambda_functions for one function at the default
scale factor 1.5: python int truncates, and current times 1.5 is exactly
3 times current over 2, so the result is min 3008 of the floor. -/
def scaled_memory (current : Nat) : Nat := min 3008 (3 * current / 2)

/-- Round-half-to-even of n over 2, the python builtin round applied to the
exact value current times 1.5 when n is 3 times current. -/
def roundHalfEven (n : Nat) : Nat :=
  if n % 2 = 0 then n / 2
  else if (n / 2) % 2 = 0 then n / 2 else n / 2 + 1

/-- Modelled from the claim's words for comparison with the source: the new
allocation as min of 3008 and round of current times 1.5. -/
def spec_scaled_memory (current : Nat) : Nat := min 3008 (roundHalfEven (3 * current))

/-- Function-name suffixes hard-coded in _scale_lambda_functions. -/
def scaling_functions : List String :=
  [("pipeline-metrics-collector"), ("performance-monitor")]

/-- Action string emitted by _scale_lambda_functions for an applied change. -/
def scaleAction (fname : String) (current newMem : Nat) : String :=
  ("Scaled ") ++ fname ++ (" memory from ") ++ toString current
    ++ ("MB to ") ++ toString newMem ++ ("MB")

/-- RecoveryExecutor._scale_lambda_functions at the default factor 1.5.
The Lambda configuration collaborator is the map memOf; none stands for
ResourceNotFoundException, which the source skips. Returns the applied
configuration updates and the action descriptions. -/
def scale_lambda_functions (owner repo : String) (memOf : String → Option Nat) :
    List (String × Nat) × List String :=
  scaling_functions.foldl
    (fun acc func_suf =>
      let fname := owner ++ ("-") ++ repo ++ ("-") ++ func_suf
      match memOf fname with
      | none => acc
      | some current =>
        let newMem := scaled_memory current
        if newMem ≠ current then
          (acc.1 ++ [(fname, newMem)], acc.2 ++ [scaleAction fname current newMem])
        else acc)
    ([], [])

/-- One stored object as listed from S3: key and last-modified time in
integer seconds. -/
structure S3Object where
  key : String
  lastModified : Int
deriving DecidableEq

/-- Thirty days in seconds as an integer, the default cleanup cutoff window. -/
def DAYS30 : Int := 2592000

/-- Per-object step of _cleanup_old_s3_data: collect an old object, and flush
a delete batch as soon as the pending list reaches 1000. The accumulator is
pending objects, issued delete batches, and emitted action strings. -/
def cleanupStep (cutoff : Int)
    (acc : List S3Object × List (List S3Object) × List String) (obj : S3Object) :
    List S3Object × List (List S3Object) × List String :=
  let pending := if obj.lastModified < cutoff then acc.1 ++ [obj] else acc.1
  if 1000 ≤ pending.length then
    (([] : List S3Object), acc.2.1 ++ [pending],
      acc.2.2 ++ [("Deleted batch of ") ++ toString pending.length ++ (" old objects")])
  else
    (pending, acc.2.1, acc.2.2)

/-- RecoveryExecutor._cleanup_old_s3_data at the default 30 days: walks the
listed objects in order (the paginator pages concatenated), flushes batches of
1000, then deletes any remainder as a final batch. Returns the delete calls
issued (each a batch of objects) and the action descriptions. -/
def cleanup_old_s3_data (now : Int) (objs : List S3Object) :
    List (List S3Object) × List String :=
  let cutoff := now - DAYS30
  let res := objs.foldl (cleanupStep cutoff) ([], [], [])
  if res.1.isEmpty then (res.2.1, res.2.2)
  else
    (res.2.1 ++ [res.1],
      res.2.2 ++ [("Deleted final batch of ") ++ toString res.1.length ++ (" old objects")])

/-- Environment of one RecoveryExecutor invocation: the data its external
collaborators would supply, and the inbound event context fields it reads. -/
structure RecoveryEnv where
  owner : String
  repo : String
  recentFailures : List FailureRecord
  memOf : String → Option Nat
  nowSec : Int
  s3Objects : List S3Object
  circuitStore : Store
  timeNow : Nat
  serviceAvailable : String → Bool
  contextKeys : List String
  runnerType : Option String
  failingServices : List String

/-- RecoveryExecutor._recover_performance_regression. -/
def recover_performance_regression (env : RecoveryEnv) : List String :=
  [("Scaling up Lambda memory for performance-critical functions")]
    ++ (scale_lambda_functions env.owner env.repo env.memOf).2
    ++ [("Clearing CloudWatch metrics cache"),
        ("Triggering performance baseline recalculation")]

/-- RecoveryExecutor._recover_resource_exhaustion, keyed on the context
fields the source tests for membership. -/
def recover_resource_exhaustion (env : RecoveryEnv) : List String :=
  (if ("lambda_throttling") ∈ env.contextKeys
    then [("Increasing Lambda provisioned concurrency")] else [])
    ++ (if ("storage_full") ∈ env.contextKeys
        then ("Cleaning up old monitoring data from S3")
          :: (cleanup_old_s3_data env.nowSec env.s3Objects).2
        else [])
    ++ (if ("dynamodb_throttling") ∈ env.contextKeys
        then [("Temporarily increasing DynamoDB capacity")] else [])

/-- RecoveryExecutor._recover_external_dependency_failure: walks the failing
services, probing those the breaker allows, and recording the probe outcome
on the circuit store. -/
def recover_external_dependency_failure (env : RecoveryEnv) :
    Except String (List String × Store) :=
  env.failingServices.foldlM
    (fun acc service => do
      let res ← should_allow_request false false acc.2 service env.timeNow
      if res.1 then
        if env.serviceAvailable service then do
          let s2 ← record_success false false res.2 service env.timeNow
          pure (acc.1 ++ [("Service ") ++ service ++ (" recovered, circuit breaker reset")], s2)
        else do
          let fr ← record_failure false false res.2 service env.timeNow
          pure (acc.1 ++ [("Service ") ++ service ++ (" still failing, circuit breaker activated")], fr.2)
      else
        pure (acc.1 ++ [("Circuit breaker active for ") ++ service ++ (", using fallback mechanisms")], res.2))
    (([] : List String), env.circuitStore)

/-- RecoveryExecutor._recover_build_failure. -/
def recover_build_failure (env : RecoveryEnv) : List String :=
  [("Clearing build cache to resolve potential cache corruption")]
    ++ (if env.runnerType = some ("ubuntu-latest")
        then [("Retrying build with ubuntu-20.04 runner for compatibility")] else [])
    ++ [("Analyzing dependency conflicts")]

/-- RecoveryExecutor.execute_recovery_plan: dispatch on the failure type with
the fall-through unknown-type action; an exception inside a branch becomes a
RecoveryError. -/
def execute_recovery_plan (env : RecoveryEnv) (failure_type : String) :
    Except String (List String) :=
  if failure_type = ("pipeline_failure") then
    Except.ok (recover_pipeline_failure env.recentFailures)
  else if failure_type = ("performance_regression") then
    Except.ok (recover_performance_regression env)
  else if failure_type = ("resource_exhaustion") then
    Except.ok (recover_resource_exhaustion env)
  else if failure_type = ("external_dependency_failure") then
    match recover_external_dependency_failure env with
    | Except.ok res => Except.ok res.1
    | Except.error e => Except.error (("Recovery execution failed: ") ++ e)
  else if failure_type = ("build_failure") then
    Except.ok (recover_build_failure env)
  else
    Except.ok ([("Unknown failure type: ") ++ failure_type])

/-- Failure types accepted by validate_event_input for direct invocations. -/
def valid_failure_types : List String :=
  [("pipeline_failure"), ("performance_regression"), ("resource_exhaustion"),
   ("external_dependency_failure"), ("build_failure"), ("manual_recovery")]

/-- Direct-invocation path of handler, after environment validation and token
retrieval succeed: validates the event failure type (a ValueError lands in the
generic 500 branch), executes the recovery plan, and computes the overall
success flag by the source's scan of the action texts for the word failed.
Returns status code, success flag and the actions. -/
def handler_direct (env : RecoveryEnv) (failure_type : String) :
    Nat × Bool × List String :=
  if !(valid_failure_types.contains failure_type) then (500, false, [])
  else
    match execute_recovery_plan env failure_type with
    | Except.error _ => (500, false, [])
    | Except.ok actions =>
      ((200 : Nat),
        (!(actions.isEmpty))
          && (!(actions.any (fun a => strContains (strLower a) ("failed")))),
        actions)

/-- Concrete OPEN record used by the concrete instantiations below. -/
def demoOpenRec : CircuitRecord :=
  { service_name := ("github"), state := CBState.OPEN, failure_count := 5,
    last_failure := some 0, last_success := some 0, ttl := TTL_WINDOW }

/-- Store holding only the OPEN demo record. -/
def demoOpenStore : Store := updateStore initStore ("github") demoOpenRec

/-- Concrete HALF_OPEN record produced by five failures at time 0 followed by
an allowed request at time 61. -/
def demoHalfOpenRec : CircuitRecord :=
  { service_name := ("github"), state := CBState.HALF_OPEN, failure_count := 5,
    last_failure := some 0, last_success := some 0, ttl := 61 + TTL_WINDOW }

/-- Store holding only the HALF_OPEN demo record. -/
def demoHalfOpenStore : Store := updateStore initStore ("github") demoHalfOpenRec

/-- Failure record whose conclusion is the lower-case word timeout. -/
def timeoutRec : FailureRecord :=
  { conclusion := some ("timeout"), commit_message := ("") }

/-- Failure record whose conclusion is the upper-case word TIMEOUT. -/
def upperTimeoutRec : FailureRecord :=
  { conclusion := some ("TIMEOUT"), commit_message := ("") }

/-- Failure record with no conclusion and an empty commit message. -/
def plainRec : FailureRecord := { conclusion := none, commit_message := ("") }

/-- Lambda-configuration collaborator holding one function at 1 MB. -/
def demoMem : String → Option Nat :=
  fun n => if n = ("o-r-pipeline-metrics-collector") then some 1 else none

/-- Concrete listing time for the cleanup scenario, one hundred days in
seconds. -/
def demoS3Now : Int := 8640000

/-- Object aged ten days at the demo listing time. -/
def o10 : S3Object := { key := ("a"), lastModified := 7776000 }

/-- Object aged forty days at the demo listing time. -/
def o40 : S3Object := { key := ("b"), lastModified := 5184000 }

/-- Object aged sixty days at the demo listing time. -/
def o60 : S3Object := { key := ("c"), lastModified := 3456000 }

/-- Listing with object ages ten, forty and sixty days. -/
def demoS3Objects : List S3Object := [o10, o40, o60]

/-- Inert invocation environment for the concrete handler scenario. -/
def demoEnv : RecoveryEnv :=
  { owner := ("o"), repo := ("r"), recentFailures := [],
    memOf := fun _ => none, nowSec := 0, s3Objects := [],
    circuitStore := initStore, timeNow := 0,
    serviceAvailable := fun _ => true, contextKeys := [],
    runnerType := none, failingServices := [] }

/-- Reading back the record just written for a service name. -/
lemma updateStore_self (s : Store) (name : String) (r : CircuitRecord) :
    updateStore s name r name = some r := by
  simp [updateStore]

/-- Reading another service name is unaffected by an update. -/
lemma updateStore_other (s : Store) (name n : String) (r : CircuitRecord)
    (h : n ≠ name) : updateStore s name r n = s n := by
  simp [updateStore, h]

/-- C4 counterexample: on the empty service name, get_circuit_state raises a
ValueError to its caller instead of returning a default CLOSED record, even
with a healthy store, so the claim fails as stated. -/
theorem get_circuit_state_empty_name_raises :
    get_circuit_state false initStore ("") 0
      = Except.error ("Service name cannot be empty") := rfl

/-- C4 (amended): for every non-empty service name, get_circuit_state never
raises; when the store read fails or the item is missing it returns the fresh
default record, which carries state CLOSED and failure_count 0 for that
service name. -/
theorem get_circuit_state_nonempty_total (readFails : Bool) (store : Store)
    (name : String) (now : Nat) (hne : name ≠ ("")) :
    (∃ r, get_circuit_state readFails store name now = Except.ok r)
      ∧ ((readFails = true ∨ store name = none) →
          get_circuit_state readFails store name now
            = Except.ok (defaultCircuitState name now))
      ∧ (defaultCircuitState name now).state = CBState.CLOSED
      ∧ (defaultCircuitState name now).failure_count = 0
      ∧ (defaultCircuitState name now).service_name = name := by
  refine ⟨?_, ?_, rfl, rfl, rfl⟩
  · cases readFails <;> simp [get_circuit_state, hne]
  · rintro (h | h) <;> simp [get_circuit_state, hne, h]

/-- Witness for the amended C4 at a concrete faulty read. -/
theorem get_circuit_state_nonempty_total_check :
    get_circuit_state true initStore ("github") 0
      = Except.ok (defaultCircuitState ("github") 0) :=
  (get_circuit_state_nonempty_total true initStore ("github") 0 (by decide)).2.1
    (Or.inl rfl)

/-- C5 counterexample: two records whose conclusion is the upper-case word
TIMEOUT make the classifier emit the timeout tag although no record contains
the substring timeout in its conclusion field as written, so the stated
if-and-only-if fails. -/
theorem analyze_patterns_case_mismatch :
    ("timeout") ∈ analyze_failure_patterns [upperTimeoutRec, upperTimeoutRec]
      ∧ ([upperTimeoutRec, upperTimeoutRec].filter spec_conclusion_timeout).length = 0 := by
  decide

/-- C5 (amended): the pattern set contains timeout iff at least two records
have a present, non-empty conclusion whose lower-cased text contains timeout;
dependency iff at least two records have a dependency keyword in their
lower-cased commit message; resource iff the record count is at least 3. -/
theorem analyze_patterns_membership_iff (fs : List FailureRecord) :
    (("timeout") ∈ analyze_failure_patterns fs
        ↔ 2 ≤ (fs.filter conclusion_timeout).length)
      ∧ (("dependency") ∈ analyze_failure_patterns fs
        ↔ 2 ≤ (fs.filter commit_dependency).length)
      ∧ (("resource") ∈ analyze_failure_patterns fs ↔ 3 ≤ fs.length) := by
  by_cases h1 : 2 ≤ (fs.filter conclusion_timeout).length <;>
    by_cases h2 : 2 ≤ (fs.filter commit_dependency).length <;>
    by_cases h3 : 3 ≤ fs.length <;>
    simp [analyze_failure_patterns, h1, h2, h3]

/-- Witness for the amended C5 on a concrete two-record input. -/
theorem analyze_patterns_membership_iff_check :
    2 ≤ ([timeoutRec, timeoutRec].filter conclusion_timeout).length :=
  (analyze_patterns_membership_iff [timeoutRec, timeoutRec]).1.mp (by decide)

/-- C6 counterexample: with three recent failures, two of them timeouts, the
comprehensive branch is taken and the produced plan does not contain the
minimal-recovery actions; and with one recent failure the plan is the
single-failure notice followed by the basic actions, so it does not equal the
basic three-action list. -/
theorem comprehensive_plan_missing_basic_actions :
    ("timeout") ∈ analyze_failure_patterns [timeoutRec, timeoutRec, plainRec]
      ∧ [timeoutRec, timeoutRec, plainRec].length = 3
      ∧ ("Restarting failed workflow")
          ∉ recover_pipeline_failure [timeoutRec, timeoutRec, plainRec]
      ∧ recover_pipeline_failure [plainRec] ≠ basic_pipeline_recovery := by
  decide

/-- C6 (amended): with three recent failures whose detected patterns include
timeout, the plan contains every timeout-specific remediation action but none
of the minimal-recovery actions; with a single recent failure the plan is the
single-failure notice followed by exactly the basic three-action list. -/
theorem pipeline_plan_shape (fs : List FailureRecord) (h3 : fs.length = 3)
    (ht : ("timeout") ∈ analyze_failure_patterns fs) :
    (∀ a ∈ recover_timeout_issues, a ∈ recover_pipeline_failure fs)
      ∧ (∀ a ∈ basic_pipeline_recovery, a ∉ recover_pipeline_failure fs)
      ∧ (∀ f : FailureRecord,
          recover_pipeline_failure [f]
            = ("Single failure detected, attempting basic recovery")
                :: basic_pipeline_recovery) := by
  have hlen : 3 ≤ fs.length := by omega
  refine ⟨?_, ?_, ?_⟩
  · intro a ha
    simp only [recover_pipeline_failure, if_pos hlen]
    simp [List.mem_append, ht]
    tauto
  · intro a ha
    simp only [recover_pipeline_failure, if_pos hlen]
    fin_cases ha <;> simp [List.mem_append, ht] <;>
      exact ⟨by decide, fun _ => by decide, fun _ => by decide⟩
  · intro f
    simp [recover_pipeline_failure]

/-- Witness for the amended C6 on the concrete three-record input. -/
theorem pipeline_plan_shape_check :
    ("Restarting failed workflow")
      ∉ recover_pipeline_failure [timeoutRec, timeoutRec, plainRec] :=
  (pipeline_plan_shape [timeoutRec, timeoutRec, plainRec] (by decide) (by decide)).2.1
    ("Restarting failed workflow") (by decide)

/-- C7 counterexample: at a current allocation of 1 MB the code truncates
1 times 1.5 to 1 and applies no change, while min 3008 of round of 1.5 is 2,
which differs and would have been applied under the claim as stated. -/
theorem scaled_memory_truncates_not_rounds :
    scaled_memory 1 = 1 ∧ spec_scaled_memory 1 = 2
      ∧ scaled_memory 1 ≠ spec_scaled_memory 1
      ∧ demoMem ("o-r-pipeline-metrics-collector") = some 1
      ∧ (scale_lambda_functions ("o") ("r") demoMem).1 = []
      ∧ (scale_lambda_functions ("o") ("r") demoMem).2 = [] := by
  decide

/-- C7 (amended): for each function in the fixed scaling list, the action
computes the new allocation as min 3008 of the truncation of current times
1.5, applies an update exactly when the new value differs from the current
one, and emits one description per applied update. -/
theorem scale_lambda_functions_spec (owner repo : String)
    (memOf : String → Option Nat) :
    (scale_lambda_functions owner repo memOf).1
        = scaling_functions.filterMap (fun func_suf =>
            match memOf (owner ++ ("-") ++ repo ++ ("-") ++ func_suf) with
            | none => none
            | some current =>
              if scaled_memory current ≠ current
                then some (owner ++ ("-") ++ repo ++ ("-") ++ func_suf, scaled_memory current)
                else none)
      ∧ (scale_lambda_functions owner repo memOf).2
        = scaling_functions.filterMap (fun func_suf =>
            match memOf (owner ++ ("-") ++ repo ++ ("-") ++ func_suf) with
            | none => none
            | some current =>
              if scaled_memory current ≠ current
                then some (scaleAction (owner ++ ("-") ++ repo ++ ("-") ++ func_suf)
                    current (scaled_memory current))
                else none) := by
  constructor <;>
    · simp only [scale_lambda_functions, scaling_functions, List.foldl, List.filterMap]
      rcases memOf (owner ++ ("-") ++ repo ++ ("-") ++ ("pipeline-metrics-collector")) with _ | c1 <;>
        rcases memOf (owner ++ ("-") ++ repo ++ ("-") ++ ("performance-monitor")) with _ | c2 <;>
        simp <;> split_ifs <;> simp

/-- Witness for the amended C7 at a concrete configuration map. -/
theorem scale_lambda_functions_spec_check :
    (scale_lambda_functions ("o") ("r") (fun _ => some 100)).1
      = [(("o-r-pipeline-metrics-collector"), 150), (("o-r-performance-monitor"), 150)] := by
  have h := (scale_lambda_functions_spec ("o") ("r") (fun _ => some 100)).1
  rw [h]
  decide

/-- C10: a direct invocation with failure type manual_recovery passes input
validation, falls through every dispatch branch to the unknown-type action,
and the handler reports overall success with status code 200. -/
theorem manual_recovery_unknown_type_success (env : RecoveryEnv) :
    handler_direct env ("manual_recovery")
      = (200, true, [("Unknown failure type: manual_recovery")]) := rfl

/-- Witness for C10 on the concrete inert environment. -/
theorem manual_recovery_unknown_type_success_check :
    handler_direct demoEnv ("manual_recovery")
      = (200, true, [("Unknown failure type: manual_recovery")]) :=
  manual_recovery_unknown_type_success demoEnv

/-- C9: when the store read or the store write inside record_failure hits a
client error, the call reports CLOSED to its caller, even when the persisted
record for the service is OPEN; under a write error the store still holds
that OPEN record. -/
theorem record_failure_store_error_returns_closed (rf wf : Bool) (store : Store)
    (name : String) (now : Nat) (rec : CircuitRecord) (hne : name ≠ (""))
    (hs : store name = some rec) (hopen : rec.state = CBState.OPEN)
    (herr : rf = true ∨ wf = true) :
    (∃ s2, record_failure rf wf store name now = Except.ok (CBState.CLOSED, s2))
      ∧ (wf = true →
          record_failure rf wf store name now = Except.ok (CBState.CLOSED, store)) := by
  constructor
  · rcases herr with h | h
    · subst h
      cases wf <;>
        simp [record_failure, get_circuit_state, hne, defaultCircuitState,
          CIRCUIT_BREAKER_FAILURE_THRESHOLD]
    · subst h
      cases rf <;> simp [record_failure, get_circuit_state, hne, hs]
  · intro h
    subst h
    cases rf <;> simp [record_failure, get_circuit_state, hne, hs]

/-- Witness for C9: a write failure with the persisted OPEN demo record. -/
theorem record_failure_store_error_returns_closed_check :
    record_failure false true demoOpenStore ("github") 5
      = Except.ok (CBState.CLOSED, demoOpenStore) :=
  (record_failure_store_error_returns_closed false true demoOpenStore ("github") 5
    demoOpenRec (by decide) rfl rfl (Or.inr rfl)).2 rfl

/-- C2: for a stored OPEN record with a recorded last_failure, a request is
allowed exactly when more than the 60 second timeout has elapsed, in which
case the stored record is rewritten to HALF_OPEN; otherwise the call returns
false and the store, hence the OPEN state, is untouched. -/
theorem open_allows_iff_timeout_elapsed (store : Store) (name : String)
    (rec : CircuitRecord) (lf now : Nat) (hne : name ≠ (""))
    (hs : store name = some rec) (hopen : rec.state = CBState.OPEN)
    (hlf : rec.last_failure = some lf) :
    (CIRCUIT_BREAKER_TIMEOUT < now - lf →
        should_allow_request false false store name now
          = Except.ok (true, updateStore store name
              { rec with state := CBState.HALF_OPEN, ttl := now + TTL_WINDOW }))
      ∧ (¬ CIRCUIT_BREAKER_TIMEOUT < now - lf →
        should_allow_request false false store name now = Except.ok (false, store)) := by
  constructor <;> intro h <;>
    simp [should_allow_request, get_circuit_state, transition_to_half_open,
      CIRCUIT_BREAKER_ENABLED, hne, hs, hopen, hlf, h]

/-- Witness for C2 in the elapsed branch at a concrete OPEN record. -/
theorem open_allows_iff_timeout_elapsed_check :
    should_allow_request false false demoOpenStore ("github") 100
      = Except.ok (true, updateStore demoOpenStore ("github")
          { demoOpenRec with state := CBState.HALF_OPEN, ttl := 100 + TTL_WINDOW }) :=
  (open_allows_iff_timeout_elapsed demoOpenStore ("github") demoOpenRec 0 100
    (by decide) rfl rfl rfl).1 (by decide)

/-- Effect of a non-empty run of consecutive record_failure calls: the final
record adds the run length to the starting failure count, stamps the last
time of the run, and is OPEN exactly when the threshold is reached. -/
lemma applyFailures_ok (name : String) (hne : name ≠ ("")) :
    ∀ (times : List Nat) (t0 : Nat) (store : Store) (cur : CircuitRecord),
      (store name).getD (defaultCircuitState name t0) = cur →
      ∃ s2 r2, applyFailures store name (t0 :: times) = Except.ok s2
        ∧ s2 name = some r2
        ∧ r2.failure_count = cur.failure_count + times.length + 1
        ∧ r2.last_failure = some (times.getLastD t0)
        ∧ r2.state
            = (if CIRCUIT_BREAKER_FAILURE_THRESHOLD
                  ≤ cur.failure_count + times.length + 1
               then CBState.OPEN else CBState.CLOSED) := by
  intro times
  induction times with
  | nil =>
    intro t0 store cur hcur
    refine ⟨updateStore store name
        { cur with
          state := if CIRCUIT_BREAKER_FAILURE_THRESHOLD ≤ cur.failure_count + 1
            then CBState.OPEN else CBState.CLOSED
          failure_count := cur.failure_count + 1
          last_failure := some t0
          ttl := t0 + TTL_WINDOW },
      _, ?_, updateStore_self _ _ _, rfl, rfl, rfl⟩
    simp [applyFailures, record_failure, get_circuit_state, hne, hcur]
  | cons t1 rest ih =>
    intro t0 store cur hcur
    have hstep : applyFailures store name (t0 :: t1 :: rest)
        = applyFailures (updateStore store name
            { cur with
              state := if CIRCUIT_BREAKER_FAILURE_THRESHOLD ≤ cur.failure_count + 1
                then CBState.OPEN else CBState.CLOSED
              failure_count := cur.failure_count + 1
              last_failure := some t0
              ttl := t0 + TTL_WINDOW }) name (t1 :: rest) := by
      simp [applyFailures, record_failure, get_circuit_state, hne, hcur]
    obtain ⟨s2, r2, happ, hname, hfc, hlf, hst⟩ := ih t1
      (updateStore store name
        { cur with
          state := if CIRCUIT_BREAKER_FAILURE_THRESHOLD ≤ cur.failure_count + 1
            then CBState.OPEN else CBState.CLOSED
          failure_count := cur.failure_count + 1
          last_failure := some t0
          ttl := t0 + TTL_WINDOW })
      ({ cur with
        state := if CIRCUIT_BREAKER_FAILURE_THRESHOLD ≤ cur.failure_count + 1
          then CBState.OPEN else CBState.CLOSED
        failure_count := cur.failure_count + 1
        last_failure := some t0
        ttl := t0 + TTL_WINDOW })
      (by rw [updateStore_self]; rfl)
    have hfc2 : r2.failure_count = cur.failure_count + 1 + rest.length + 1 := hfc
    have hst2 : r2.state
        = (if CIRCUIT_BREAKER_FAILURE_THRESHOLD ≤ cur.failure_count + 1 + rest.length + 1
           then CBState.OPEN else CBState.CLOSED) := hst
    refine ⟨s2, r2, hstep ▸ happ, hname, ?_, ?_, ?_⟩
    · simp only [List.length_cons]
      omega
    · rw [List.getLastD_cons]
      exact hlf
    · simp only [List.length_cons]
      have harith : cur.failure_count + 1 + rest.length + 1
          = cur.failure_count + (rest.length + 1) + 1 := by omega
      rw [hst2, harith]

/-- C1: starting from no stored record, five consecutive record_failure calls
leave the service OPEN with failure_count at the threshold, and a request
checked before the timeout has elapsed since the last failure is denied. -/
theorem circuit_open_after_five_failures (name : String) (t1 t2 t3 t4 t5 now : Nat)
    (hne : name ≠ ("")) (hnow : now - t5 ≤ CIRCUIT_BREAKER_TIMEOUT) :
    ∃ s5 r, applyFailures initStore name [t1, t2, t3, t4, t5] = Except.ok s5
      ∧ s5 name = some r
      ∧ r.state = CBState.OPEN
      ∧ r.failure_count = CIRCUIT_BREAKER_FAILURE_THRESHOLD
      ∧ should_allow_request false false s5 name now = Except.ok (false, s5) := by
  obtain ⟨s5, r, happ, hname, hfc, hlf, hst⟩ :=
    applyFailures_ok name hne [t2, t3, t4, t5] t1 initStore
      (defaultCircuitState name t1) (by simp [initStore])
  simp [defaultCircuitState] at hfc hst
  have hopen : r.state = CBState.OPEN := by
    rw [hst]
    simp [CIRCUIT_BREAKER_FAILURE_THRESHOLD]
  have hlf5 : r.last_failure = some t5 := by simpa using hlf
  refine ⟨s5, r, happ, hname, hopen, ?_, ?_⟩
  · rw [hfc]
    rfl
  · simp [should_allow_request, get_circuit_state, CIRCUIT_BREAKER_ENABLED, hne,
      hname, hopen, hlf5]
    intro hcon
    exact absurd hnow (by simpa [CIRCUIT_BREAKER_TIMEOUT] using Nat.not_le.mpr hcon)

/-- Witness for C1 with the service github failing at five concrete times. -/
theorem circuit_open_after_five_failures_check :
    (applyFailures initStore ("github") [0, 1, 2, 3, 4]).map
        (fun s => ((s ("github")).map CircuitRecord.state,
          (should_allow_request false false s ("github") 30).map Prod.fst))
      = Except.ok (some CBState.OPEN, Except.ok false) := by
  obtain ⟨s5, r, happ, hname, hopen, hfc, hreq⟩ :=
    circuit_open_after_five_failures ("github") 0 1 2 3 4 30 (by decide) (by decide)
  rw [happ]
  simp [Except.map, hname, hopen, hreq]

/-- Invariant of the cleanup fold: collected objects are exactly the old ones
in order, the pending list never reaches the batch limit, every issued batch
is within the limit, and actions and batches stay in bijection. -/
lemma cleanup_fold_inv (cutoff : Int) :
    ∀ (objs pending : List S3Object) (batches : List (List S3Object))
      (actions : List String),
      pending.length ≤ 999 →
      actions.length = batches.length →
      (∀ b ∈ batches, b.length ≤ 1000) →
      ((objs.foldl (cleanupStep cutoff) (pending, batches, actions)).2.1.flatten
            ++ (objs.foldl (cleanupStep cutoff) (pending, batches, actions)).1
          = batches.flatten ++ pending
            ++ objs.filter (fun o => decide (o.lastModified < cutoff)))
        ∧ (objs.foldl (cleanupStep cutoff) (pending, batches, actions)).1.length ≤ 999
        ∧ (objs.foldl (cleanupStep cutoff) (pending, batches, actions)).2.2.length
          = (objs.foldl (cleanupStep cutoff) (pending, batches, actions)).2.1.length
        ∧ (∀ b ∈ (objs.foldl (cleanupStep cutoff) (pending, batches, actions)).2.1,
            b.length ≤ 1000) := by
  intro objs
  induction objs with
  | nil =>
    intro pending batches actions hp ha hb
    exact ⟨by simp, hp, ha, hb⟩
  | cons o rest ih =>
    intro pending batches actions hp ha hb
    by_cases hold : o.lastModified < cutoff
    · by_cases hflush : 1000 ≤ pending.length + 1
      · have hstep : cleanupStep cutoff (pending, batches, actions) o
            = ([], batches ++ [pending ++ [o]],
                actions ++ [("Deleted batch of ") ++ toString (pending ++ [o]).length
                  ++ (" old objects")]) := by
          simp [cleanupStep, hold, hflush]
        have hlen1000 : (pending ++ [o]).length ≤ 1000 := by
          simp
          omega
        obtain ⟨h1, h2, h3, h4⟩ := ih [] (batches ++ [pending ++ [o]])
          (actions ++ [("Deleted batch of ") ++ toString (pending ++ [o]).length
            ++ (" old objects")])
          (by simp) (by simp [ha]) (by
            intro b hbmem
            rcases List.mem_append.mp hbmem with hbl | hbr
            · exact hb b hbl
            · simp at hbr
              rw [hbr]
              exact hlen1000)
        refine ⟨?_, ?_, ?_, ?_⟩ <;>
          simp only [List.foldl_cons, hstep]
        · rw [h1]
          simp [hold]
        · exact h2
        · exact h3
        · exact h4
      · have hstep : cleanupStep cutoff (pending, batches, actions) o
            = (pending ++ [o], batches, actions) := by
          simp only [cleanupStep, if_pos hold]
          rw [if_neg (by simpa using hflush)]
        obtain ⟨h1, h2, h3, h4⟩ := ih (pending ++ [o]) batches actions
          (by simp; omega) ha hb
        refine ⟨?_, ?_, ?_, ?_⟩ <;>
          simp only [List.foldl_cons, hstep]
        · rw [h1]
          simp [hold]
        · exact h2
        · exact h3
        · exact h4
    · have hstep : cleanupStep cutoff (pending, batches, actions) o
          = (pending, batches, actions) := by
        simp only [cleanupStep, if_neg hold]
        rw [if_neg (by omega)]
      obtain ⟨h1, h2, h3, h4⟩ := ih pending batches actions hp ha hb
      refine ⟨?_, ?_, ?_, ?_⟩ <;>
        simp only [List.foldl_cons, hstep]
      · rw [h1]
        simp [hold]
      · exact h2
      · exact h3
      · exact h4

/-- C8: the cleanup deletes exactly the listed objects older than the 30-day
cutoff and no others, every delete call carries at most 1000 keys, one batch
description is returned per delete call; and on the concrete listing with
ages 10, 40 and 60 days exactly the objects aged 40 and 60 days are deleted,
in a single final batch of two. -/
theorem cleanup_deletes_old_in_batches (now : Int) (objs : List S3Object) :
    ((cleanup_old_s3_data now objs).1.flatten
        = objs.filter (fun o => decide (o.lastModified < now - DAYS30)))
      ∧ (∀ b ∈ (cleanup_old_s3_data now objs).1, b.length ≤ 1000)
      ∧ (cleanup_old_s3_data now objs).2.length = (cleanup_old_s3_data now objs).1.length
      ∧ cleanup_old_s3_data demoS3Now demoS3Objects
          = ([[o40, o60]], [("Deleted final batch of 2 old objects")]) := by
  obtain ⟨h1, h2, h3, h4⟩ :=
    cleanup_fold_inv (now - DAYS30) objs [] [] [] (by simp) rfl (by simp)
  simp only [List.flatten, List.nil_append] at h1
  by_cases hemp :
      (objs.foldl (cleanupStep (now - DAYS30)) ([], [], [])).1.isEmpty
  · have hnil : (objs.foldl (cleanupStep (now - DAYS30)) ([], [], [])).1 = [] :=
      List.isEmpty_iff.mp hemp
    refine ⟨?_, ?_, ?_, by decide⟩ <;>
      simp only [cleanup_old_s3_data, hemp, if_pos]
    · rw [hnil] at h1
      simpa using h1
    · exact h4
    · exact h3
  · refine ⟨?_, ?_, ?_, by decide⟩ <;>
      simp only [cleanup_old_s3_data, hemp, if_neg, Bool.false_eq_true,
        not_false_eq_true]
    · rw [List.flatten_append]
      simpa using h1
    · intro b hbmem
      rcases List.mem_append.mp hbmem with hbl | hbr
      · exact h4 b hbl
      · simp at hbr
        rw [hbr]
        omega
    · simp [h3]

/-- Witness for C8 applying the theorem at the concrete demo listing. -/
theorem cleanup_deletes_old_in_batches_check :
    (cleanup_old_s3_data demoS3Now demoS3Objects).1.flatten
      = demoS3Objects.filter (fun o => decide (o.lastModified < demoS3Now - DAYS30)) :=
  (cleanup_deletes_old_in_batches demoS3Now demoS3Objects).1

/-- A fetched record in a non-CLOSED state cannot be the fresh default, so it
was actually present in the store. -/
lemma getD_eq_some_of_state (s : Store) (name : String) (now : Nat)
    (cur : CircuitRecord)
    (hcur : (s name).getD (defaultCircuitState name now) = cur)
    (hnc : cur.state ≠ CBState.CLOSED) : s name = some cur := by
  cases hsn : s name with
  | none =>
    rw [hsn] at hcur
    simp at hcur
    rw [← hcur] at hnc
    simp [defaultCircuitState] at hnc
  | some r =>
    rw [hsn] at hcur
    simp at hcur
    rw [hcur]

/-- The empty table satisfies the circuit invariant. -/
lemma circuitInv_init : CircuitInv initStore := by
  intro n r hr
  simp [initStore] at hr

/-- Every circuit-breaker operation preserves the circuit invariant. -/
lemma circuitInv_step (s s2 : Store) (hstep : CBStep s s2) (hinv : CircuitInv s) :
    CircuitInv s2 := by
  cases hstep with
  | success name now x h =>
    by_cases hn : name = ("")
    · simp [record_success, get_circuit_state, hn] at h
    · simp only [record_success, get_circuit_state, if_neg hn, Bool.false_eq_true,
        if_false, if_neg, Except.ok.injEq] at h
      intro n r hr hst
      by_cases hnn : n = name
      · subst hnn
        rw [← h, updateStore_self] at hr
        rcases hst with hst | hst <;>
          · rw [← Option.some_inj.mp hr] at hst
            simp at hst
      · rw [← h, updateStore_other _ _ _ _ hnn] at hr
        exact hinv n r hr hst
  | failure name now st x h =>
    by_cases hn : name = ("")
    · simp [record_failure, get_circuit_state, hn] at h
    · simp only [record_failure, get_circuit_state, if_neg hn, Bool.false_eq_true,
        if_false, if_neg, Except.ok.injEq, Prod.mk.injEq] at h
      intro n r hr hst
      by_cases hnn : n = name
      · subst hnn
        rw [← h.2, updateStore_self] at hr
        have hrec := Option.some_inj.mp hr
        by_cases hth : CIRCUIT_BREAKER_FAILURE_THRESHOLD
            ≤ ((s n).getD (defaultCircuitState n now)).failure_count + 1
        · rw [← hrec]
          simpa using hth
        · rcases hst with hst | hst <;>
            · rw [← hrec] at hst
              simp [hth] at hst
      · rw [← h.2, updateStore_other _ _ _ _ hnn] at hr
        exact hinv n r hr hst
  | allow name now b x h =>
    by_cases hn : name = ("")
    · simp [should_allow_request, get_circuit_state, CIRCUIT_BREAKER_ENABLED, hn] at h
    · simp only [should_allow_request, transition_to_half_open, get_circuit_state,
        CIRCUIT_BREAKER_ENABLED, Bool.not_true, Bool.false_eq_true, if_false,
        if_neg hn] at h
      rcases hcs : ((s name).getD (defaultCircuitState name now)).state with _ | _ | _ <;>
        rw [hcs] at h <;> simp only [] at h
      · rw [← (Prod.mk.injEq .. |>.mp (Except.ok.injEq .. |>.mp h)).2]
        exact hinv
      · rcases hlf : ((s name).getD (defaultCircuitState name now)).last_failure
          with _ | lf <;> rw [hlf] at h <;> simp only [] at h
        · rw [← (Prod.mk.injEq .. |>.mp (Except.ok.injEq .. |>.mp h)).2]
          exact hinv
        · by_cases hto : CIRCUIT_BREAKER_TIMEOUT < now - lf
          · rw [if_pos hto] at h
            simp only [Except.ok.injEq, Prod.mk.injEq] at h
            have hsome : s name = some ((s name).getD (defaultCircuitState name now)) :=
              getD_eq_some_of_state s name now _ rfl (by rw [hcs]; simp)
            have hfc := hinv name _ hsome (Or.inl hcs)
            intro n r hr hst
            by_cases hnn : n = name
            · subst hnn
              rw [← h.2, updateStore_self] at hr
              rw [← Option.some_inj.mp hr]
              simpa using hfc
            · rw [← h.2, updateStore_other _ _ _ _ hnn] at hr
              exact hinv n r hr hst
          · rw [if_neg hto] at h
            simp only [Except.ok.injEq, Prod.mk.injEq] at h
            rw [← h.2]
            exact hinv
      · rw [← (Prod.mk.injEq .. |>.mp (Except.ok.injEq .. |>.mp h)).2]
        exact hinv

/-- Every reachable circuit-breaker table satisfies the circuit invariant. -/
lemma circuitInv_reachable (s : Store) (h : CBReachable s) : CircuitInv s := by
  induction h with
  | init => exact circuitInv_init
  | step s s2 hs hstep ih => exact circuitInv_step s s2 hstep ih

/-- C3: in any table reachable by the circuit-breaker operations, a service
recorded as HALF_OPEN already has failure_count at or above the threshold, so
recording one more failure returns OPEN and persists an OPEN record whose
last_failure is the current time, restarting the timeout window. -/
theorem half_open_failure_reopens (s : Store) (hreach : CBReachable s)
    (name : String) (r : CircuitRecord) (now : Nat) (hne : name ≠ (""))
    (hs : s name = some r) (hhalf : r.state = CBState.HALF_OPEN) :
    CIRCUIT_BREAKER_FAILURE_THRESHOLD ≤ r.failure_count
      ∧ record_failure false false s name now
          = Except.ok (CBState.OPEN, updateStore s name
              { r with
                state := CBState.OPEN
                failure_count := r.failure_count + 1
                last_failure := some now
                ttl := now + TTL_WINDOW }) := by
  have hfc := circuitInv_reachable s hreach name r hs (Or.inr hhalf)
  have hth : CIRCUIT_BREAKER_FAILURE_THRESHOLD ≤ r.failure_count + 1 := by
    omega
  refine ⟨hfc, ?_⟩
  simp [record_failure, get_circuit_state, hne, hs, hth]

/-- Witness for C3: the HALF_OPEN demo store is reached by five failures at
time 0 and an allowed request at time 61, and one more failure returns OPEN. -/
theorem half_open_failure_reopens_check :
    (record_failure false false demoHalfOpenStore ("github") 100).map Prod.fst
      = Except.ok CBState.OPEN := by
  have h0 : CBReachable initStore := CBReachable.init
  have h1 := CBReachable.step _ _ h0 (CBStep.failure _ ("github") 0 _ _ rfl)
  have h2 := CBReachable.step _ _ h1 (CBStep.failure _ ("github") 0 _ _ rfl)
  have h3 := CBReachable.step _ _ h2 (CBStep.failure _ ("github") 0 _ _ rfl)
  have h4 := CBReachable.step _ _ h3 (CBStep.failure _ ("github") 0 _ _ rfl)
  have h5 := CBReachable.step _ _ h4 (CBStep.failure _ ("github") 0 _ _ rfl)
  have h6 := CBReachable.step _ _ h5 (CBStep.allow _ ("github") 61 _ _ rfl)
  have hreach : CBReachable demoHalfOpenStore := by
    convert h6 using 1
    funext n
    by_cases hn : n = ("github") <;>
      simp [demoHalfOpenStore, demoHalfOpenRec, updateStore, initStore,
        defaultCircuitState, hn]
  have hres := (half_open_failure_reopens demoHalfOpenStore hreach ("github")
    demoHalfOpenRec 100 (by decide) rfl rfl).2
  rw [hres]
  rfl
